import Mathlib

/-!
Verification of the codespin-cli core against its specification.

This file gives a shallow embedding of the two core functions the claims
are about:

* `completion` — src/api/openai/completion.ts: the OpenAI completion
  client.  Environment reads (`process.env`) are modelled by a
  `CompletionEnv` record, and the single `fetch` call is modelled by a
  `FetchOutcome` parameter describing what the network would have
  returned.  The function returns the `CompletionResult` value together
  with an `Option OpenAIRequest`: `some req` iff the code reached the
  `fetch` call (so `none` means no network request was issued).

* `includeDirective` — the include-expander source file: recursive
  expansion of `codespin:include:<path>` directives.  File-system and
  path-resolution collaborators (`fs.readFile`, `resolveProjectFilePath`,
  `path.dirname`, `process.cwd()`) live outside the given sources and are
  modelled as an `IncludeEnv` record of abstract functions.  JavaScript
  strings are modelled as `List Char`; the `RegExp.exec` loop with its
  persistent `lastIndex`, and `String.replace` with a string pattern
  (including the `GetSubstitution` dollar escapes), are embedded
  faithfully.  The unbounded recursion of the source is made total with a
  fuel parameter; exhausted fuel plays the role of the stack overflow the
  JavaScript would hit.
-/

namespace Codespin

/-! ## Completion client (src/api/openai/completion.ts) -/

/-- The `error` field of `OpenAICompletionResponse` (completion.ts lines 7-10). -/
structure ApiError where
  code : String
  message : String
deriving DecidableEq, Repr

/-- One element of `choices` (completion.ts lines 11-16). -/
structure OpenAIChoice where
  content : String
  finishReason : String
deriving DecidableEq, Repr

/-- The parsed provider payload `OpenAICompletionResponse` (completion.ts lines 6-17).
`choices` is a list; the source indexes `choices[0]` without checking emptiness. -/
structure OpenAIResponse where
  error : Option ApiError
  choices : List OpenAIChoice
deriving DecidableEq, Repr

/-- Outcome of the `fetch` + `response.json()` step: either a parsed payload, or a
thrown transport/parse error whose `message` property is modelled as an
`Option String` (`none` for an absent message, `some ""` also being falsy in JS). -/
inductive FetchOutcome where
  | success (resp : OpenAIResponse)
  | failure (errMessage : Option String)
deriving DecidableEq, Repr

/-- The slice of `process.env` the client reads (completion.ts lines 27-30).
A variable that is unset is `none`; a variable set to the empty string is
`some ""` (falsy in JS, which the code tests with `!` and `||`). -/
structure CompletionEnv where
  apiKey : Option String
  completionsEndpoint : Option String

/-- `CompletionOptions` as used by completion.ts: `model` and `maxTokens` may be
absent (`undefined`); `debug` is coerced with `Boolean(...)`. -/
structure CompletionOptions where
  model : Option String
  maxTokens : Option Int
  debug : Bool
deriving DecidableEq, Repr

/-- `CompletionResult`: the tagged union `{ok:true, message}` / `{ok:false, error:{code,message}}`. -/
inductive CompletionResult where
  | ok (message : String)
  | err (code : String) (message : String)
deriving DecidableEq, Repr

/-- The request body the client would POST (completion.ts lines 53-70): the
effective endpoint, model, token budget and the single user-turn prompt. -/
structure OpenAIRequest where
  endpoint : String
  model : String
  maxTokens : Int
  prompt : String
deriving DecidableEq, Repr

/-- Line 23: `const model = options.model || "gpt-3.5-turbo";` — JS `||` takes the
fallback on any falsy left operand, so both `undefined` and `""` fall back. -/
def effectiveModel (options : CompletionOptions) : String :=
  match options.model with
  | some m => if m = "" then "gpt-3.5-turbo" else m
  | none => "gpt-3.5-turbo"

/-- Line 24: `const maxTokens = options.maxTokens || 4000 - prompt.length;` —
`0` is falsy, so an explicit `0` also falls back to `4000 - prompt.length`.
JS numbers are modelled as `Int` (the subtraction may go negative). -/
def effectiveMaxTokens (options : CompletionOptions) (prompt : String) : Int :=
  match options.maxTokens with
  | some t => if t = 0 then 4000 - (prompt.length : Int) else t
  | none => 4000 - (prompt.length : Int)

/-- Lines 48-49: the endpoint falls back to the OpenAI default when the
environment variable is unset or empty. -/
def effectiveEndpoint (env : CompletionEnv) : String :=
  match env.completionsEndpoint with
  | some e => if e = "" then "https://api.openai.com/v1/chat/completions" else e
  | none => "https://api.openai.com/v1/chat/completions"

/-- Line 38: `if (!OPENAI_API_KEY)` — true when the variable is unset or empty. -/
def apiKeyMissing (env : CompletionEnv) : Bool :=
  match env.apiKey with
  | some k => k = ""
  | none => true

/-- Lines 111-112: `error.message || "An error occurred while fetching the completion."`. -/
def fetchFailureMessage (errMessage : Option String) : String :=
  match errMessage with
  | some m => if m = "" then "An error occurred while fetching the completion." else m
  | none => "An error occurred while fetching the completion."

/-- The runtime error message produced when `data.choices[0]` is `undefined` and
the code reads `.finish_reason` from it (completion.ts line 93).  The exact text
is produced by the JavaScript engine and is environment-dependent; it is
modelled here as a fixed opaque string.  The thrown TypeError is caught by the
surrounding `try` and surfaces as a `fetch_error`. -/
def choicesIndexErrorMessage : String :=
  "Cannot read properties of undefined (reading finish_reason)"

/-- The `completion` function of completion.ts, lines 19-116, as a pure function.

Returns the `CompletionResult` paired with `some` request when the code reached
the `fetch` call (lines 51-70) and `none` when it returned before any network
activity.  Control flow, in source order:
* line 38: missing/empty API key → `missing_api_key`, before any fetch;
* lines 51-73: the fetch and JSON parse — a thrown error is caught at
  line 105 and returned as `fetch_error` (lines 107-114);
* line 82: a provider `error` field → its code and message;
* line 93: `choices[0].finish_reason !== "stop"` → that finish reason as both
  code and message (lines 94-100); an empty `choices` list makes line 93 throw
  a TypeError, caught by the same `catch` as the fetch;
* line 104: otherwise `ok` with the raw `choices[0].message.content`. -/
def completion (env : CompletionEnv) (fetchResult : FetchOutcome)
    (prompt : String) (options : CompletionOptions) :
    CompletionResult × Option OpenAIRequest :=
  if apiKeyMissing env then
    (.err "missing_api_key" "OPENAI_API_KEY is not set in the environment variables.",
     none)
  else
    let req : OpenAIRequest :=
      { endpoint := effectiveEndpoint env
        model := effectiveModel options
        maxTokens := effectiveMaxTokens options prompt
        prompt := prompt }
    match fetchResult with
    | .failure m => (.err "fetch_error" (fetchFailureMessage m), some req)
    | .success data =>
      match data.error with
      | some e => (.err e.code e.message, some req)
      | none =>
        match data.choices with
        | [] => (.err "fetch_error" choicesIndexErrorMessage, some req)
        | c :: _ =>
          if c.finishReason ≠ "stop" then
            (.err c.finishReason c.finishReason, some req)
          else
            (.ok c.content, some req)

/-! ## Include expander (`includeDirective`) -/

/-- The literal part of the directive pattern `/codespin:include:([^"\s]+)/g`. -/
def includeToken : List Char := "codespin:include:".data

/-- JS `\s` on the characters our model can meet: space, tab, line feed,
vertical tab, form feed, carriage return, and no-break space. -/
def jsIsSpace (c : Char) : Bool :=
  c = ' ' || c = '\t' || c = '\n' || c = '\r' ||
  c = Char.ofNat 11 || c = Char.ofNat 12 || c = Char.ofNat 160

/-- A character the capture group `[^"\s]+` accepts. -/
def isPathChar (c : Char) : Bool := !jsIsSpace c && c ≠ '"'

/-- Greedy run of path characters, as the `+` quantifier takes. -/
def takePath : List Char → List Char
  | [] => []
  | c :: rest => if isPathChar c then c :: takePath rest else []

/-- Try to match the directive regex at the current position: the literal token
followed by at least one path character.  Returns `(match0, capture1)` —
the whole match and the captured path. -/
def matchAt (l : List Char) : Option (List Char × List Char) :=
  if includeToken.isPrefixOf l then
    let p := takePath (l.drop includeToken.length)
    if p.isEmpty then none else some (includeToken ++ p, p)
  else none

/-- Leftmost match at or after the head of `l`, with its offset from the head. -/
def findMatchAux : List Char → Nat → Option (Nat × List Char × List Char)
  | [], _ => none
  | l@(_ :: rest), idx =>
    match matchAt l with
    | some r => some (idx, r)
    | none => findMatchAux rest (idx + 1)

/-- `RegExp.exec` on `l` with `lastIndex = i`: the leftmost match starting at an
index `≥ i`, returned as `(index, match0, capture1)`. -/
def findMatchFrom (l : List Char) (i : Nat) : Option (Nat × List Char × List Char) :=
  (findMatchAux (l.drop i) 0).map (fun r => (r.1 + i, r.2))

/-- Index of the first occurrence of `target` in `l` (JS `String.indexOf`). -/
def firstOccur : List Char → List Char → Option Nat
  | _, [] => some 0
  | [], _ :: _ => none
  | l@(_ :: rest), t@(_ :: _) =>
    if t.isPrefixOf l then some 0 else (firstOccur rest t).map (· + 1)

/-- ECMAScript `GetSubstitution` applied to a string replacement value with no
capture list: `$$` is a literal dollar, `$&` the matched text, a dollar
followed by a backquote the text before the match, `$` followed by an
apostrophe the text after it; any other dollar sequence is literal. -/
def getSubstitution (matched before after : List Char) : List Char → List Char
  | [] => []
  | '$' :: c :: rest =>
    if c = '$' then '$' :: getSubstitution matched before after rest
    else if c = '&' then matched ++ getSubstitution matched before after rest
    else if c = Char.ofNat 96 then before ++ getSubstitution matched before after rest
    else if c = Char.ofNat 39 then after ++ getSubstitution matched before after rest
    else '$' :: c :: getSubstitution matched before after rest
  | c :: rest => c :: getSubstitution matched before after rest

/-- JS `l.replace(target, repl)` with string arguments: replace the first
occurrence of `target` (not necessarily the one `exec` just found!), applying
the dollar escapes of `GetSubstitution` to `repl`; identity when `target`
does not occur. -/
def replaceFirstJs (l target repl : List Char) : List Char :=
  match firstOccur l target with
  | none => l
  | some i =>
    let before := l.take i
    let after := l.drop (i + target.length)
    before ++ getSubstitution target before after repl ++ after

/-- The collaborators of `includeDirective` that live outside the given
sources: `resolveProjectFilePath` (which may reject, e.g. a root-relative
path outside a git project), `path.dirname`, `process.cwd()`, and
`fs.readFile` with the `err.message` it produces on failure. -/
structure IncludeEnv where
  resolvePath : String → String → Except String String
  dirname : String → String
  cwd : String
  readFile : String → Option String
  readError : String → String

/-- The second argument passed to `resolveProjectFilePath`:
`promptFilePath ? path.dirname(promptFilePath) : process.cwd()`. -/
def fromDir (env : IncludeEnv) (promptFilePath : Option String) : String :=
  match promptFilePath with
  | some fp => env.dirname fp
  | none => env.cwd

/-- Stands in for the stack-overflow error unbounded recursion would raise. -/
def outOfFuelMessage : String := "Maximum call stack size exceeded"

/-- The `while ((match = includePattern.exec(contents)) !== null)` loop of
`includeDirective`, lines 14-44 of the source, with the state the loop
actually carries: the current `contents` and the pattern object's persistent
`lastIndex`.  A fresh call of the source function starts with `lastIndex = 0`
(the regex is a local); one iteration
* runs `exec` from `lastIndex` (which `exec` then sets to
  `match.index + match[0].length`, before any replacement);
* resolves the captured path against `dirname(promptFilePath)` or the cwd —
  a resolver rejection propagates (the source does not catch it);
* reads the file, a failure becoming the
  `Failed to include file from path: ...` error that aborts everything;
* recursively expands the included content (a fresh call: `lastIndex = 0`,
  origin is the included file, same `baseDir`);
* replaces the first occurrence of `match[0]` in `contents` with the
  expanded content and loops with the new `contents` and the already-advanced
  `lastIndex`.
Fuel decreases on every step so the function is total; the source recurses
(and loops) unboundedly. -/
def includeLoop (env : IncludeEnv) :
    Nat → List Char → Nat → Option String → String → Except String (List Char)
  | 0, _, _, _, _ => Except.error outOfFuelMessage
  | fuel + 1, contents, lastIndex, promptFilePath, baseDir =>
    match findMatchFrom contents lastIndex with
    | none => Except.ok contents
    | some (idx, m, pth) =>
      match env.resolvePath (String.mk pth) (fromDir env promptFilePath) with
      | Except.error e => Except.error e
      | Except.ok fullPath =>
        match env.readFile fullPath with
        | none =>
          Except.error ("Failed to include file from path: " ++ fullPath ++
            ". Error: " ++ env.readError fullPath)
        | some fileContent =>
          match includeLoop env fuel fileContent.data 0 (some fullPath) baseDir with
          | Except.error e => Except.error e
          | Except.ok expanded =>
            includeLoop env fuel (replaceFirstJs contents m expanded)
              (idx + m.length) promptFilePath baseDir

/-- `includeDirective(contents, promptFilePath, baseDir)` — the exported
function.  The source gives `baseDir` the default `""`; it is threaded to the
recursive calls and never otherwise used. -/
def includeDirective (env : IncludeEnv) (fuel : Nat) (contents : String)
    (promptFilePath : Option String) (baseDir : String) : Except String String :=
  (includeLoop env fuel contents.data 0 promptFilePath baseDir).map String.mk

/-! ## Concrete environments used as test fixtures -/

/-- An include environment whose resolver is the identity and whose file system
holds `a ↦ "X"` and `b ↦ "Y"`. -/
def envXY : IncludeEnv :=
  { resolvePath := fun p _ => Except.ok p
    dirname := fun _ => ""
    cwd := ""
    readFile := fun p => if p = "a" then some "X" else if p = "b" then some "Y" else none
    readError := fun _ => "ENOENT: no such file or directory" }

/-- An include environment whose file system holds only `a ↦ "X"`; every other
path (in particular `bad`) fails to read. -/
def envBad : IncludeEnv :=
  { resolvePath := fun p _ => Except.ok p
    dirname := fun _ => ""
    cwd := ""
    readFile := fun p => if p = "a" then some "X" else none
    readError := fun _ => "ENOENT: no such file or directory" }

/-- A completion environment with an API key configured. -/
def envOk : CompletionEnv := { apiKey := some "sk-test", completionsEndpoint := none }

/-- A completion environment with no API key configured. -/
def envNoKey : CompletionEnv := { apiKey := none, completionsEndpoint := none }

/-- Options with every field unset/false. -/
def opts0 : CompletionOptions := { model := none, maxTokens := none, debug := false }

/-- Options with the falsy explicit values `model = ""` and `maxTokens = 0`. -/
def optsFalsy : CompletionOptions := { model := some "", maxTokens := some 0, debug := false }

/-- A provider payload with no error field, a non-empty message content, and
`finish_reason = "length"` (truncation). -/
def respLen : OpenAIResponse :=
  { error := none, choices := [{ content := "partial output", finishReason := "length" }] }

/-- A prompt of length 500. -/
def prompt500 : String := String.mk (List.replicate 500 'a')

/-! ## Helper lemmas -/

/-- If the directive token does not occur in `l` as a contiguous substring, the
scanner finds no match anywhere in `l`. -/
theorem findMatchAux_eq_none (l : List Char) (h : ¬ includeToken <:+: l) :
    ∀ idx, findMatchAux l idx = none := by
  induction l with
  | nil => intro idx; rfl
  | cons c rest ih =>
    intro idx
    have hpre : includeToken.isPrefixOf (c :: rest) = false := by
      cases hb : includeToken.isPrefixOf (c :: rest) with
      | false => rfl
      | true => exact absurd (List.isPrefixOf_iff_prefix.mp hb).isInfix h
    have h1 : matchAt (c :: rest) = none := by
      unfold matchAt
      simp [hpre]
    have h2 : ¬ includeToken <:+: rest := fun hin => h (List.infix_cons hin)
    rw [findMatchAux, h1, ih h2]

/-- `exec` with `lastIndex = 0` returns no match on token-free text. -/
theorem findMatchFrom_zero_eq_none (l : List Char) (h : ¬ includeToken <:+: l) :
    findMatchFrom l 0 = none := by
  unfold findMatchFrom
  rw [List.drop_zero, findMatchAux_eq_none l h]
  rfl

/-- The loop never consults `baseDir`: it is only threaded to recursive calls. -/
theorem includeLoop_baseDir_irrelevant (env : IncludeEnv) (fuel : Nat) :
    ∀ (contents : List Char) (lastIndex : Nat) (promptFilePath : Option String)
      (b₁ b₂ : String),
      includeLoop env fuel contents lastIndex promptFilePath b₁ =
        includeLoop env fuel contents lastIndex promptFilePath b₂ := by
  induction fuel with
  | zero => intro c i p b₁ b₂; rfl
  | succ n ih =>
    intro c i p b₁ b₂
    rw [includeLoop, includeLoop]
    cases hf : findMatchFrom c i with
    | none => rfl
    | some r =>
      obtain ⟨idx, m, pth⟩ := r
      dsimp only
      cases hr : env.resolvePath (String.mk pth) (fromDir env p) with
      | error e => rfl
      | ok fullPath =>
        dsimp only
        cases hread : env.readFile fullPath with
        | none => rfl
        | some fileContent =>
          dsimp only
          rw [ih fileContent.data 0 (some fullPath) b₁ b₂]
          cases includeLoop env n fileContent.data 0 (some fullPath) b₂ with
          | error e => rfl
          | ok expanded => exact ih _ _ _ _ _

/-! ## Claims about the include expander -/

/-- Claim C7: for every input text containing no occurrence of the
include-directive token, and for every origin path and base directory, the
expander returns the input text unchanged.  (Any positive fuel suffices: the
very first `exec` returns `null` and the loop body never runs.) -/
theorem includeDirective_id_of_no_token (env : IncludeEnv) (fuel : Nat)
    (contents : String) (promptFilePath : Option String) (baseDir : String)
    (h : ¬ includeToken <:+: contents.data) :
    includeDirective env (fuel + 1) contents promptFilePath baseDir =
      Except.ok contents := by
  unfold includeDirective
  rw [includeLoop, findMatchFrom_zero_eq_none contents.data h]
  rfl

/-- Witness for C7 at the concrete input `"hello world"`. -/
theorem includeDirective_id_of_no_token_witness :
    includeDirective envXY 1 "hello world" none "" = Except.ok "hello world" :=
  includeDirective_id_of_no_token envXY 0 "hello world" none "" (by decide)

/-- Claim C9: the expander's result does not depend on `baseDir` — any two
calls differing only in `baseDir` (including the source's default `""`)
return the same output, since `baseDir` is threaded through recursive calls
but never consulted. -/
theorem includeDirective_baseDir_irrelevant (env : IncludeEnv) (fuel : Nat)
    (contents : String) (promptFilePath : Option String) (b₁ b₂ : String) :
    includeDirective env fuel contents promptFilePath b₁ =
      includeDirective env fuel contents promptFilePath b₂ := by
  unfold includeDirective
  rw [includeLoop_baseDir_irrelevant env fuel contents.data 0 promptFilePath b₁ b₂]

/-- Claim C2 is refuted by the code: in `envXY` (files `a ↦ "X"`, `b ↦ "Y"`)
the input holds two directives with different path arguments, yet the result
still contains the second directive verbatim instead of `"Y"`.  The pattern
object's `lastIndex` was advanced to `18` by the first `exec` before the
18-character match was replaced by the 1-character `"X"`; the second
directive then sits wholly before `lastIndex` in the shrunken string and
`exec` never sees it.  The claimed output would have been `"X Y"`. -/
theorem includeDirective_skips_second_directive :
    includeDirective envXY 5 "codespin:include:a codespin:include:b" none "" =
        Except.ok "X codespin:include:b" ∧
      ("X codespin:include:b" : String) ≠ "X Y" :=
  ⟨rfl, by decide⟩

/-- Claim C3 is refuted by the code: the expander applied to this well-formed,
acyclic input (`a ↦ "X"`, `b ↦ "Y"`, neither file containing further
directives) returns an output that still contains a directive token, and
re-applying the expander to that output changes it to `"X Y"` — so expansion
is not idempotent on its own output. -/
theorem includeDirective_not_idempotent_cex :
    includeDirective envXY 5 "codespin:include:a codespin:include:b" none "" =
        Except.ok "X codespin:include:b" ∧
      includeDirective envXY 5 "X codespin:include:b" none "" = Except.ok "X Y" ∧
      ("X Y" : String) ≠ "X codespin:include:b" :=
  ⟨rfl, rfl, by decide⟩

/-- Claim C3 as amended: expansion is idempotent once no directive tokens
remain — whenever an expander output contains no occurrence of the directive
token, re-running the expander on it (with any origin, base directory and
positive fuel) returns it unchanged.  (An acyclic well-formed input's output
may, however, still contain directive tokens, as the counterexample shows.) -/
theorem includeDirective_idempotent_of_no_token (env env₂ : IncludeEnv)
    (fuel fuel₂ : Nat) (contents out : String)
    (promptFilePath promptFilePath₂ : Option String) (baseDir baseDir₂ : String)
    (_hout : includeDirective env fuel contents promptFilePath baseDir = Except.ok out)
    (h : ¬ includeToken <:+: out.data) :
    includeDirective env₂ (fuel₂ + 1) out promptFilePath₂ baseDir₂ =
      Except.ok out := by
  unfold includeDirective
  rw [includeLoop, findMatchFrom_zero_eq_none out.data h]
  rfl

/-- Witness for the amended C3: expanding `"codespin:include:a"` in `envXY`
yields `"X"`, which contains no token, and re-running the expander on `"X"`
returns it unchanged. -/
theorem includeDirective_idempotent_of_no_token_witness :
    includeDirective envXY 3 "X" none "" = Except.ok "X" :=
  includeDirective_idempotent_of_no_token envXY envXY 5 2 "codespin:include:a" "X"
    none none "" "" rfl (by decide)

/-- Claim C8 is refuted by the code: this input contains a directive
(`codespin:include:bad`) whose referenced file cannot be read in `envBad`,
yet expansion does not fail — it returns a partially expanded result with
that directive left in place, because the first directive's short replacement
`"X"` left the pattern's `lastIndex` beyond the second directive. -/
theorem includeDirective_unreadable_skipped_cex :
    includeDirective envBad 5 "codespin:include:a codespin:include:bad" none "" =
        Except.ok "X codespin:include:bad" ∧
      envBad.readFile "bad" = none :=
  ⟨rfl, rfl⟩

/-- Claim C8 as amended: for every directive occurrence that the scan actually
reaches — stated here for the first match of the text — an unreadable
referenced file aborts the whole expansion with the error naming the failed
path and the underlying cause; no result is returned. -/
theorem includeDirective_read_failure_aborts (env : IncludeEnv) (fuel : Nat)
    (contents : String) (promptFilePath : Option String) (baseDir : String)
    (idx : Nat) (m p : List Char) (fullPath : String)
    (h1 : findMatchFrom contents.data 0 = some (idx, m, p))
    (h2 : env.resolvePath (String.mk p) (fromDir env promptFilePath) =
      Except.ok fullPath)
    (h3 : env.readFile fullPath = none) :
    includeDirective env (fuel + 1) contents promptFilePath baseDir =
      Except.error ("Failed to include file from path: " ++ fullPath ++
        ". Error: " ++ env.readError fullPath) := by
  unfold includeDirective
  rw [includeLoop, h1]
  dsimp only
  rw [h2]
  dsimp only
  rw [h3]
  rfl

/-- Witness for the amended C8: a directive for the unreadable `bad` as the
first match aborts the expansion with the expected error message. -/
theorem includeDirective_read_failure_aborts_witness :
    includeDirective envBad 5 "codespin:include:bad" none "" =
      Except.error ("Failed to include file from path: bad" ++
        ". Error: " ++ envBad.readError "bad") :=
  includeDirective_read_failure_aborts envBad 4 "codespin:include:bad" none "" 0
    "codespin:include:bad".data "bad".data "bad" rfl rfl rfl

/-! ## Claims about the completion client -/

/-- Claim C1: for every provider payload with no error field whose first choice
has a finish reason other than `"stop"`, the client returns `Err` with that
finish reason as code (and message) and never returns `Ok`, regardless of the
message content; only a `"stop"` finish reason yields `Ok` with the raw text. -/
theorem completion_finish_reason_gate (env : CompletionEnv) (prompt : String)
    (options : CompletionOptions) (resp : OpenAIResponse) (c : OpenAIChoice)
    (rest : List OpenAIChoice) (hkey : apiKeyMissing env = false)
    (herr : resp.error = none) (hch : resp.choices = c :: rest) :
    (c.finishReason ≠ "stop" →
      (completion env (FetchOutcome.success resp) prompt options).1 =
          CompletionResult.err c.finishReason c.finishReason ∧
        ∀ s, (completion env (FetchOutcome.success resp) prompt options).1 ≠
          CompletionResult.ok s) ∧
      (c.finishReason = "stop" →
        (completion env (FetchOutcome.success resp) prompt options).1 =
          CompletionResult.ok c.content) := by
  constructor
  · intro hne
    have hres : (completion env (FetchOutcome.success resp) prompt options).1 =
        CompletionResult.err c.finishReason c.finishReason := by
      simp [completion, hkey, herr, hch, hne]
    refine ⟨hres, fun s hs => ?_⟩
    rw [hres] at hs
    exact CompletionResult.noConfusion hs
  · intro hstop
    simp [completion, hkey, herr, hch, hstop]

/-- Witness for C1: a payload with `finish_reason = "length"` and non-empty
content yields exactly `Err` with code `"length"`. -/
theorem completion_finish_reason_gate_witness :
    (completion envOk (FetchOutcome.success respLen) "p" opts0).1 =
      CompletionResult.err "length" "length" :=
  ((completion_finish_reason_gate envOk "p" opts0 respLen
    { content := "partial output", finishReason := "length" } [] rfl rfl rfl).1
    (by decide)).1

/-- Claim C4: the client never throws across its boundary — every transport
failure is returned as the value `Err` with code `"fetch_error"` and the
cause as message (when the key check was passed, i.e. a fetch happened at
all), and on every input whatsoever the result is a plain `Ok`/`Err` value. -/
theorem completion_never_throws (env : CompletionEnv) (prompt : String)
    (options : CompletionOptions) :
    (∀ m, apiKeyMissing env = false →
      (completion env (FetchOutcome.failure m) prompt options).1 =
        CompletionResult.err "fetch_error" (fetchFailureMessage m)) ∧
      ∀ f : FetchOutcome,
        (∃ s, (completion env f prompt options).1 = CompletionResult.ok s) ∨
          ∃ code msg, (completion env f prompt options).1 =
            CompletionResult.err code msg := by
  constructor
  · intro m hk
    simp [completion, hk]
  · intro f
    cases h : (completion env f prompt options).1 with
    | ok s => exact Or.inl ⟨s, rfl⟩
    | err code msg => exact Or.inr ⟨code, msg, rfl⟩

/-- Witness for C4: a concrete transport failure surfaces as the value
`Err` with code `"fetch_error"` and the thrown cause as message. -/
theorem completion_never_throws_witness :
    (completion envOk (FetchOutcome.failure (some "socket hang up")) "p" opts0).1 =
      CompletionResult.err "fetch_error" (fetchFailureMessage (some "socket hang up")) :=
  (completion_never_throws envOk "p" opts0).1 (some "socket hang up") rfl

/-- Claim C5: whenever no API credential is configured (unset, or the falsy
empty string), the client returns `Err` with code `"missing_api_key"` and the
request component is `none` — the fetch call is never reached, whatever the
network would have answered. -/
theorem completion_missing_key_no_fetch (env : CompletionEnv) (f : FetchOutcome)
    (prompt : String) (options : CompletionOptions)
    (h : apiKeyMissing env = true) :
    completion env f prompt options =
      (CompletionResult.err "missing_api_key"
        "OPENAI_API_KEY is not set in the environment variables.", none) := by
  simp [completion, h]

/-- Witness for C5 at a concrete environment without a key. -/
theorem completion_missing_key_no_fetch_witness :
    completion envNoKey (FetchOutcome.failure none) "p" opts0 =
      (CompletionResult.err "missing_api_key"
        "OPENAI_API_KEY is not set in the environment variables.", none) :=
  completion_missing_key_no_fetch envNoKey (FetchOutcome.failure none) "p" opts0 rfl

/-- Claim C6: with `maxTokens` unset the computed token budget is exactly
`4000 - length(prompt)`, the length being plain string length. -/
theorem effectiveMaxTokens_unset (options : CompletionOptions) (prompt : String)
    (h : options.maxTokens = none) :
    effectiveMaxTokens options prompt = 4000 - (prompt.length : Int) := by
  simp [effectiveMaxTokens, h]

/-- Witness for C6: for a prompt of length 500 the computed budget is 3500. -/
theorem effectiveMaxTokens_unset_witness :
    effectiveMaxTokens opts0 prompt500 = 3500 := by
  have h : prompt500.length = 500 := by
    show (String.mk (List.replicate 500 'a')).length = 500
    rw [String.length_mk, List.length_replicate]
  rw [effectiveMaxTokens_unset opts0 prompt500 rfl, h]
  norm_num

/-- Claim C10: the defaults trigger on falsy values, not only absent ones — an
explicit `maxTokens = 0` still yields the `4000 - length(prompt)` fallback,
and an explicit empty-string model still yields `"gpt-3.5-turbo"`. -/
theorem completion_falsy_defaults (options : CompletionOptions) (prompt : String) :
    (options.maxTokens = some 0 →
      effectiveMaxTokens options prompt = 4000 - (prompt.length : Int)) ∧
      (options.model = some "" → effectiveModel options = "gpt-3.5-turbo") := by
  constructor
  · intro h
    simp [effectiveMaxTokens, h]
  · intro h
    simp [effectiveModel, h]

/-- Witness for C10 at concrete falsy options and the prompt `"abc"`. -/
theorem completion_falsy_defaults_witness :
    effectiveMaxTokens optsFalsy "abc" = 3997 ∧
      effectiveModel optsFalsy = "gpt-3.5-turbo" :=
  ⟨by rw [(completion_falsy_defaults optsFalsy "abc").1 rfl]; rfl,
    (completion_falsy_defaults optsFalsy "abc").2 rfl⟩

end Codespin
